import Mathlib

/-!
Shallow embedding of `src/app/main.py` (py-burger-recipe): a descriptor-based
attribute-validation mechanism (`Validator`, `Number`, `OneOf`) and the
`BurgerRecipe` record with six validated fields.

Python dynamic values are modelled as a tagged union; Python exceptions as a
tagged error type (`TypeError` / `ValueError` / `AttributeError`); an
instance's `__dict__` as a partial map from attribute names to values.
-/

namespace BurgerSpec

/-- Dynamic Python values that can reach the validators in this program:
integers, booleans (a subclass of `int` in Python), strings, and `None`. -/
inductive Value
  | vInt (n : Int)
  | vBool (b : Bool)
  | vStr (s : String)
  | vNone
deriving DecidableEq

/-- Python's `isinstance(value, int)` view of a value: `int` and `bool`
both pass (bool is a subclass of int, `True == 1`, `False == 0`);
everything else is not an integer. -/
def Value.toIntCoerce : Value → Option Int
  | .vInt n => some n
  | .vBool b => some (if b then 1 else 0)
  | .vStr _ => none
  | .vNone => none

/-- Python `==` between the values of our union: numeric values compare by
their integer value (so `True == 1`), strings by content, `None` only to
itself; cross-kind comparisons are `False`. -/
def Value.pyEq (v w : Value) : Bool :=
  match v.toIntCoerce, w.toIntCoerce with
  | some a, some b => a == b
  | _, _ =>
    match v, w with
    | .vStr s, .vStr t => s == t
    | .vNone, .vNone => true
    | _, _ => false

/-- Python `str()` of a value, as used in f-string interpolation. -/
def Value.pyStr : Value → String
  | .vInt n => toString n
  | .vBool b => if b then "True" else "False"
  | .vStr s => s
  | .vNone => "None"

/-- The Python exception classes raised by this program. -/
inductive PyErrorType
  | typeError
  | valueError
  | attributeError
deriving DecidableEq

/-- A raised Python exception: its class together with its message. -/
inductive PyError
  | typeError (msg : String)
  | valueError (msg : String)
  | attributeError (msg : String)
deriving DecidableEq

/-- The exception class (kind) of a raised exception, ignoring the message. -/
def PyError.errType : PyError → PyErrorType
  | .typeError _ => .typeError
  | .valueError _ => .valueError
  | .attributeError _ => .attributeError

/-- The message carried by a raised exception. -/
def PyError.msg : PyError → String
  | .typeError m => m
  | .valueError m => m
  | .attributeError m => m

/-- The kind of the error of a validation outcome, `none` on success. -/
def errKindOf (r : Except PyError Unit) : Option PyErrorType :=
  match r with
  | .error e => some e.errType
  | .ok _ => none

/-- `Validator.__set_name__`: the private backing-location name is the
field name prefixed with an underscore (`self.protected_name = f"_{name}"`). -/
def protectedName (name : String) : String := "_" ++ name

/-- A single quote character, for Python `repr` of strings. -/
def sq : String := String.singleton (Char.ofNat 39)

/-- Python `repr` of a simple (quote-free) string: wrapped in single quotes. -/
def pyReprStr (s : String) : String := sq ++ s ++ sq

/-- Python `str()` of a tuple of strings, e.g. `('ketchup', 'mayo', 'burger')`. -/
def pyTupleRepr (xs : List String) : String :=
  match xs with
  | [x] => "(" ++ pyReprStr x ++ ",)"
  | _ => "(" ++ String.intercalate ", " (xs.map pyReprStr) ++ ")"

/-- Message of the `TypeError` raised by `Number.validate`. -/
def numberTypeMsg : String := "Quantity should be integer."

/-- Message of the `ValueError` raised by `Number.validate` on an
out-of-range value (the f-string interpolates only `min_value` and
`max_value`). -/
def numberRangeMsg (min_value max_value : Int) : String :=
  "Quantity should not be less than " ++ toString min_value ++
    " and greater than " ++ toString max_value ++ "."

/-- Message of the `ValueError` raised by `OneOf.validate`. -/
def oneOfMsg (v : Value) (options : List String) : String :=
  "Expected " ++ v.pyStr ++ " to be one of " ++ pyTupleRepr options ++ "."

/-- The two concrete validator subclasses of the abstract `Validator`:
`Number(min_value, max_value)` and `OneOf(options)`. -/
inductive Validator
  | number (min_value max_value : Int)
  | oneOf (options : List String)
deriving DecidableEq

/-- `Number.validate` / `OneOf.validate` from the source:

`Number`: raise `TypeError` unless `isinstance(value, int)`; then raise
`ValueError` unless `min_value <= value <= max_value`; else succeed.

`OneOf`: raise `ValueError` unless `value in options` (Python `in`, i.e.
`==` against each element); else succeed. -/
def Validator.validate : Validator → Value → Except PyError Unit
  | .number min_value max_value, v =>
    match v.toIntCoerce with
    | none => .error (.typeError numberTypeMsg)
    | some n =>
      if min_value ≤ n ∧ n ≤ max_value then .ok ()
      else .error (.valueError (numberRangeMsg min_value max_value))
  | .oneOf options, v =>
    if options.any (fun s => v.pyEq (.vStr s)) then .ok ()
    else .error (.valueError (oneOfMsg v options))

/-- A descriptor object after class creation: its validator together with
the backing name recorded by `__set_name__`. -/
structure Desc where
  validator : Validator
  protected_name : String
deriving DecidableEq

/-- An instance's `__dict__`: a partial map from attribute names to values. -/
def PyDict := String → Option Value

/-- A freshly created instance has an empty `__dict__`. -/
def emptyDict : PyDict := fun _ => none

/-- Python `setattr(instance, k, v)`: point update of the `__dict__`. -/
def setattrD (d : PyDict) (k : String) (v : Value) : PyDict :=
  fun q => if q = k then some v else d q

/-- Python `getattr(instance, k)`: look up `k`, raising `AttributeError`
when the attribute was never set. -/
def getattrD (d : PyDict) (k : String) : Except PyError Value :=
  match d k with
  | some v => .ok v
  | none => .error (.attributeError ("object has no attribute " ++ pyReprStr k))

/-- `Validator.__set__(self, instance, value)`: run `self.validate(value)`;
on failure the exception propagates and the instance dict is untouched; on
success `setattr(instance, self.protected_name, value)`. The result is the
post-state of the instance dict together with the propagated exception,
if any. -/
def Desc.set (self : Desc) (d : PyDict) (v : Value) : PyDict × Option PyError :=
  match self.validator.validate v with
  | .error e => (d, some e)
  | .ok _ => (setattrD d self.protected_name v, none)

/-- `Validator.__set__` in exception-monad form: the dict is only returned
when the write succeeded. -/
def Desc.setE (self : Desc) (d : PyDict) (v : Value) : Except PyError PyDict :=
  match self.set d v with
  | (d2, none) => .ok d2
  | (_, some e) => .error e

/-- The result of `Validator.__get__`: the descriptor itself when accessed
on the class, or the stored value when accessed on an instance. -/
inductive GetResult
  | descriptor (d : Desc)
  | value (v : Value)
deriving DecidableEq

/-- `Validator.__get__(self, instance, owner)`: with `instance is None`
(class access) return `self`; otherwise
`getattr(instance, self.protected_name)`. -/
def Desc.get (self : Desc) (inst : Option PyDict) : Except PyError GetResult :=
  match inst with
  | none => .ok (.descriptor self)
  | some d =>
    match getattrD d self.protected_name with
    | .ok v => .ok (.value v)
    | .error e => .error e

namespace BurgerRecipe

/-- Class attribute `buns = Number(2, 3)` (after `__set_name__`). -/
def buns : Desc := ⟨.number 2 3, protectedName "buns"⟩

/-- Class attribute `cheese = Number(0, 2)` (after `__set_name__`). -/
def cheese : Desc := ⟨.number 0 2, protectedName "cheese"⟩

/-- Class attribute `tomatoes = Number(0, 3)` (after `__set_name__`). -/
def tomatoes : Desc := ⟨.number 0 3, protectedName "tomatoes"⟩

/-- Class attribute `cutlets = Number(1, 3)` (after `__set_name__`). -/
def cutlets : Desc := ⟨.number 1 3, protectedName "cutlets"⟩

/-- Class attribute `eggs = Number(0, 2)` (after `__set_name__`). -/
def eggs : Desc := ⟨.number 0 2, protectedName "eggs"⟩

/-- Class attribute `sauce = OneOf(("ketchup", "mayo", "burger"))`
(after `__set_name__`). -/
def sauce : Desc := ⟨.oneOf ["ketchup", "mayo", "burger"], protectedName "sauce"⟩

/-- `BurgerRecipe.__init__`: starting from an empty instance dict, assign
`buns`, `cheese`, `tomatoes`, `cutlets`, `eggs`, `sauce` in that order;
each assignment goes through the corresponding descriptor's `__set__`,
and the first exception aborts construction. -/
def init (buns_v cheese_v tomatoes_v cutlets_v eggs_v sauce_v : Value) :
    Except PyError PyDict := do
  let d ← buns.setE emptyDict buns_v
  let d ← cheese.setE d cheese_v
  let d ← tomatoes.setE d tomatoes_v
  let d ← cutlets.setE d cutlets_v
  let d ← eggs.setE d eggs_v
  sauce.setE d sauce_v

end BurgerRecipe

/-- The example construction from the spec's testable properties:
`BurgerRecipe(2, 1, 1, 1, 1, "ketchup")`. -/
def exampleRecipe : Except PyError PyDict :=
  BurgerRecipe.init (.vInt 2) (.vInt 1) (.vInt 1) (.vInt 1) (.vInt 1)
    (.vStr "ketchup")

/-- Read a field through its descriptor on a possibly-failed construction
result (a failed construction has no instance to read from). -/
def readField (r : Except PyError PyDict) (desc : Desc) :
    Except PyError GetResult :=
  match r with
  | .ok d => desc.get (some d)
  | .error e => .error e

/-- `true` exactly when the construction attempt succeeded. -/
def isOkE (r : Except PyError PyDict) : Bool :=
  match r with
  | .ok _ => true
  | .error _ => false

/-- Boolean substring test on the underlying character lists, used to state
which data a diagnostic message surfaces. -/
def surfacesB (pat msg : String) : Bool :=
  decide (List.IsInfix pat.data msg.data)

/-! ### Helper lemmas -/

theorem setE_of_error (desc : Desc) (d : PyDict) (v : Value) (e : PyError)
    (h : desc.validator.validate v = .error e) : desc.setE d v = .error e := by
  simp [Desc.setE, Desc.set, h]

theorem setE_of_ok (desc : Desc) (d : PyDict) (v : Value)
    (h : desc.validator.validate v = .ok ()) :
    desc.setE d v = .ok (setattrD d desc.protected_name v) := by
  simp [Desc.setE, Desc.set, h]

theorem oneOf_mem_char (options : List String) (v : Value) :
    (options.any (fun s => v.pyEq (.vStr s)) = true) ↔
      ∃ s, v = .vStr s ∧ s ∈ options := by
  constructor
  · intro h
    rcases List.any_eq_true.mp h with ⟨s, hs, heq⟩
    cases v with
    | vStr t =>
      refine ⟨t, rfl, ?_⟩
      have : t = s := by
        simpa [Value.pyEq, Value.toIntCoerce] using heq
      exact this ▸ hs
    | vInt n => simp [Value.pyEq, Value.toIntCoerce] at heq
    | vBool b => simp [Value.pyEq, Value.toIntCoerce] at heq
    | vNone => simp [Value.pyEq, Value.toIntCoerce] at heq
  · rintro ⟨s, rfl, hs⟩
    exact List.any_eq_true.mpr ⟨s, hs, by simp [Value.pyEq, Value.toIntCoerce]⟩

theorem bindE_error {α β : Type} (e : PyError) (f : α → Except PyError β) :
    (Except.error e : Except PyError α) >>= f = .error e := rfl

theorem bindE_ok {α β : Type} (a : α) (f : α → Except PyError β) :
    (Except.ok a : Except PyError α) >>= f = f a := rfl

theorem setE_eq (desc : Desc) (d : PyDict) (v : Value) :
    desc.setE d v = (desc.validator.validate v).bind
      (fun _ => .ok (setattrD d desc.protected_name v)) := by
  cases h : desc.validator.validate v with
  | error e => simp [Desc.setE, Desc.set, h, Except.bind]
  | ok u => cases u; simp [Desc.setE, Desc.set, h, Except.bind]

/-! ### Claims -/

/-- C1: for every integer `v` with `min ≤ v ≤ max`, `Number.validate`
succeeds; for every integer `v` outside the inclusive range it raises
`ValueError` (the `OutOfRange` kind); for every value that is not an
integer by the host language's test it raises `TypeError` (the
`TypeMismatch` kind). -/
theorem number_validate_spec (min_value max_value n : Int) (v : Value) :
    ((min_value ≤ n ∧ n ≤ max_value) →
      (Validator.number min_value max_value).validate (.vInt n) = .ok ())
    ∧ ((n < min_value ∨ max_value < n) →
      (Validator.number min_value max_value).validate (.vInt n)
        = .error (.valueError (numberRangeMsg min_value max_value)))
    ∧ (v.toIntCoerce = none →
      (Validator.number min_value max_value).validate v
        = .error (.typeError numberTypeMsg)) := by
  refine ⟨?_, ?_, ?_⟩
  · intro h
    simp [Validator.validate, Value.toIntCoerce, h]
  · intro h
    have : ¬(min_value ≤ n ∧ n ≤ max_value) := by omega
    simp [Validator.validate, Value.toIntCoerce, this]
  · intro h
    simp [Validator.validate, h]

/-- Witness for C1 at `min = 2`, `max = 3`: `2` is accepted, `1` is
rejected with `ValueError`, and the string `"x"` is rejected with
`TypeError`. -/
theorem number_validate_spec_witness :
    (Validator.number 2 3).validate (.vInt 2) = .ok ()
    ∧ (Validator.number 2 3).validate (.vInt 1)
        = .error (.valueError (numberRangeMsg 2 3))
    ∧ (Validator.number 2 3).validate (.vStr "x")
        = .error (.typeError numberTypeMsg) :=
  ⟨(number_validate_spec 2 3 2 (.vStr "x")).1 (by decide),
   (number_validate_spec 2 3 1 (.vStr "x")).2.1 (by decide),
   (number_validate_spec 2 3 1 (.vStr "x")).2.2 (by decide)⟩

/-- C2: `OneOf.validate` succeeds exactly when the value is a member of
`options` (membership by Python equality, invariant under permutation of
`options`); any non-member is rejected with `ValueError` (the `NotInSet`
kind). -/
theorem oneOf_validate_spec (options : List String) (v : Value) :
    ((Validator.oneOf options).validate v = .ok ()
      ↔ ∃ s, v = .vStr s ∧ s ∈ options)
    ∧ ((¬ ∃ s, v = .vStr s ∧ s ∈ options) →
      (Validator.oneOf options).validate v
        = .error (.valueError (oneOfMsg v options)))
    ∧ (∀ options2, options.Perm options2 →
      ((Validator.oneOf options).validate v = .ok ()
        ↔ (Validator.oneOf options2).validate v = .ok ())) := by
  have key : ∀ opts : List String,
      ((Validator.oneOf opts).validate v = .ok ()
        ↔ ∃ s, v = .vStr s ∧ s ∈ opts) := by
    intro opts
    rw [← oneOf_mem_char]
    constructor
    · intro h
      by_contra hmem
      simp [Validator.validate, hmem] at h
    · intro h
      simp [Validator.validate, h]
  refine ⟨key options, ?_, ?_⟩
  · intro h
    have hmem : options.any (fun s => v.pyEq (.vStr s)) = false := by
      rw [← Bool.not_eq_true, oneOf_mem_char]
      exact h
    simp [Validator.validate, hmem]
  · intro options2 hperm
    rw [key options, key options2]
    constructor
    · rintro ⟨s, rfl, hs⟩
      exact ⟨s, rfl, hperm.mem_iff.mp hs⟩
    · rintro ⟨s, rfl, hs⟩
      exact ⟨s, rfl, hperm.mem_iff.mpr hs⟩

/-- Witness for C2 on the sauce options: `"ketchup"` is accepted, the
integer `1` is rejected with `ValueError`, and membership is preserved
under a permutation of the options. -/
theorem oneOf_validate_spec_witness :
    (Validator.oneOf ["ketchup", "mayo", "burger"]).validate
        (.vStr "ketchup") = .ok ()
    ∧ (Validator.oneOf ["ketchup", "mayo", "burger"]).validate (.vInt 1)
        = .error (.valueError (oneOfMsg (.vInt 1) ["ketchup", "mayo", "burger"]))
    ∧ ((Validator.oneOf ["ketchup", "mayo", "burger"]).validate
          (.vStr "ketchup") = .ok ()
        ↔ (Validator.oneOf ["mayo", "burger", "ketchup"]).validate
          (.vStr "ketchup") = .ok ()) :=
  ⟨(oneOf_validate_spec ["ketchup", "mayo", "burger"] (.vStr "ketchup")).1.mpr
      ⟨"ketchup", rfl, by decide⟩,
   (oneOf_validate_spec ["ketchup", "mayo", "burger"] (.vInt 1)).2.1
      (by rintro ⟨s, hs, _⟩; cases hs),
   (oneOf_validate_spec ["ketchup", "mayo", "burger"] (.vStr "ketchup")).2.2
      ["mayo", "burger", "ketchup"] (by decide)⟩

/-- C4: `Validator.__set__` is all-or-nothing: when the check fails the
exception is exactly the validator's failure, the instance dict is left
pointwise unchanged (the prior value, if any, is still readable); when the
check passes the new value is stored under the backing name, overwriting
any previous value. -/
theorem set_all_or_nothing (desc : Desc) (d : PyDict) (v : Value) :
    (∀ e, desc.validator.validate v = .error e →
      desc.set d v = (d, some e)
      ∧ ∀ k, (desc.set d v).1 k = d k)
    ∧ (desc.validator.validate v = .ok () →
      desc.set d v = (setattrD d desc.protected_name v, none)
      ∧ (desc.set d v).1 desc.protected_name = some v) := by
  constructor
  · intro e he
    constructor
    · simp [Desc.set, he]
    · intro k
      simp [Desc.set, he]
  · intro hok
    constructor
    · simp [Desc.set, hok]
    · simp [Desc.set, hok, setattrD]

/-- Witness for C4, from the spec's example: on an instance whose
`cutlets` backing slot holds `2`, assigning `4` raises `ValueError` and
the slot still reads `2`; assigning `3` overwrites it. -/
theorem set_all_or_nothing_witness :
    (BurgerRecipe.cutlets.set (setattrD emptyDict "_cutlets" (.vInt 2)) (.vInt 4)).1 "_cutlets"
      = some (.vInt 2)
    ∧ BurgerRecipe.cutlets.set (setattrD emptyDict "_cutlets" (.vInt 2)) (.vInt 4)
      = (setattrD emptyDict "_cutlets" (.vInt 2), some (.valueError (numberRangeMsg 1 3)))
    ∧ (BurgerRecipe.cutlets.set (setattrD emptyDict "_cutlets" (.vInt 2)) (.vInt 3)).1 "_cutlets"
      = some (.vInt 3) := by
  have hfail := (set_all_or_nothing BurgerRecipe.cutlets
    (setattrD emptyDict "_cutlets" (.vInt 2)) (.vInt 4)).1
    (.valueError (numberRangeMsg 1 3)) (by rfl)
  have hok := (set_all_or_nothing BurgerRecipe.cutlets
    (setattrD emptyDict "_cutlets" (.vInt 2)) (.vInt 3)).2 (by rfl)
  refine ⟨?_, hfail.1, hok.2⟩
  rw [hfail.1]
  simp [setattrD]

/-- C8: `Validator.__get__` accessed on the class (no instance) returns
the descriptor object itself; accessed on an instance it returns the
value stored in the backing location, and raises `AttributeError` if the
field was never successfully written. -/
theorem get_spec (desc : Desc) (d : PyDict) :
    desc.get none = .ok (.descriptor desc)
    ∧ (∀ v, d desc.protected_name = some v →
        desc.get (some d) = .ok (.value v))
    ∧ (d desc.protected_name = none →
        desc.get (some d)
          = .error (.attributeError
              ("object has no attribute " ++ pyReprStr desc.protected_name))) := by
  refine ⟨rfl, ?_, ?_⟩
  · intro v hv
    simp [Desc.get, getattrD, hv]
  · intro hnone
    simp [Desc.get, getattrD, hnone]

/-- Witness for C8 on the `buns` descriptor: class access returns the
descriptor, instance access returns the stored value, and a read before
any write raises `AttributeError`. -/
theorem get_spec_witness :
    BurgerRecipe.buns.get none = .ok (.descriptor BurgerRecipe.buns)
    ∧ BurgerRecipe.buns.get (some (setattrD emptyDict "_buns" (.vInt 2)))
      = .ok (.value (.vInt 2))
    ∧ BurgerRecipe.buns.get (some emptyDict)
      = .error (.attributeError ("object has no attribute " ++ pyReprStr "_buns")) :=
  ⟨(get_spec BurgerRecipe.buns emptyDict).1,
   (get_spec BurgerRecipe.buns (setattrD emptyDict "_buns" (.vInt 2))).2.1
      (.vInt 2) (by rfl),
   (get_spec BurgerRecipe.buns emptyDict).2.2 (by rfl)⟩

/-- C10: frame property of `Validator.__set__`: a set of one field, whether
it succeeds or fails, leaves every other key of the instance dict
unchanged; and the six backing names of `BurgerRecipe`, each derived as an
underscore plus the field name, are pairwise distinct. -/
theorem set_frame (desc : Desc) (d : PyDict) (v : Value) (k : String) :
    (k ≠ desc.protected_name → (desc.set d v).1 k = d k)
    ∧ [BurgerRecipe.buns.protected_name, BurgerRecipe.cheese.protected_name,
        BurgerRecipe.tomatoes.protected_name, BurgerRecipe.cutlets.protected_name,
        BurgerRecipe.eggs.protected_name, BurgerRecipe.sauce.protected_name].Nodup
    ∧ BurgerRecipe.buns.protected_name = protectedName "buns"
    ∧ BurgerRecipe.cheese.protected_name = protectedName "cheese"
    ∧ BurgerRecipe.tomatoes.protected_name = protectedName "tomatoes"
    ∧ BurgerRecipe.cutlets.protected_name = protectedName "cutlets"
    ∧ BurgerRecipe.eggs.protected_name = protectedName "eggs"
    ∧ BurgerRecipe.sauce.protected_name = protectedName "sauce" := by
  refine ⟨?_, by decide, rfl, rfl, rfl, rfl, rfl, rfl⟩
  intro hk
  cases hval : desc.validator.validate v with
  | error e => simp [Desc.set, hval]
  | ok u => cases u; simp [Desc.set, hval, setattrD, hk]

/-- Witness for C10: a successful write to `buns` and a failed write to
`cutlets` both leave the `_cheese` slot unchanged. -/
theorem set_frame_witness :
    (BurgerRecipe.buns.set (setattrD emptyDict "_cheese" (.vInt 1)) (.vInt 2)).1 "_cheese"
      = some (.vInt 1)
    ∧ (BurgerRecipe.cutlets.set (setattrD emptyDict "_cheese" (.vInt 1)) (.vInt 9)).1 "_cheese"
      = some (.vInt 1) :=
  ⟨by
    rw [(set_frame BurgerRecipe.buns (setattrD emptyDict "_cheese" (.vInt 1))
      (.vInt 2) "_cheese").1 (by decide)]
    rfl,
   by
    rw [(set_frame BurgerRecipe.cutlets (setattrD emptyDict "_cheese" (.vInt 1))
      (.vInt 9) "_cheese").1 (by decide)]
    rfl⟩

/-- C3: `BurgerRecipe.__init__` assigns `buns`, `cheese`, `tomatoes`,
`cutlets`, `eggs`, `sauce` in that order, and the first assignment whose
check fails aborts construction with exactly that failure, the later
fields never being checked (their values are arbitrary here); in
particular `buns = 1` makes construction fail with the `buns` range
`ValueError` whatever the other five arguments are. -/
theorem init_fail_fast (b c t cu e s : Value) :
    (∀ err, BurgerRecipe.buns.validator.validate b = .error err →
      BurgerRecipe.init b c t cu e s = .error err)
    ∧ (∀ err, BurgerRecipe.buns.validator.validate b = .ok () →
      BurgerRecipe.cheese.validator.validate c = .error err →
      BurgerRecipe.init b c t cu e s = .error err)
    ∧ (∀ err, BurgerRecipe.buns.validator.validate b = .ok () →
      BurgerRecipe.cheese.validator.validate c = .ok () →
      BurgerRecipe.tomatoes.validator.validate t = .error err →
      BurgerRecipe.init b c t cu e s = .error err)
    ∧ (∀ err, BurgerRecipe.buns.validator.validate b = .ok () →
      BurgerRecipe.cheese.validator.validate c = .ok () →
      BurgerRecipe.tomatoes.validator.validate t = .ok () →
      BurgerRecipe.cutlets.validator.validate cu = .error err →
      BurgerRecipe.init b c t cu e s = .error err)
    ∧ (∀ err, BurgerRecipe.buns.validator.validate b = .ok () →
      BurgerRecipe.cheese.validator.validate c = .ok () →
      BurgerRecipe.tomatoes.validator.validate t = .ok () →
      BurgerRecipe.cutlets.validator.validate cu = .ok () →
      BurgerRecipe.eggs.validator.validate e = .error err →
      BurgerRecipe.init b c t cu e s = .error err)
    ∧ (∀ err, BurgerRecipe.buns.validator.validate b = .ok () →
      BurgerRecipe.cheese.validator.validate c = .ok () →
      BurgerRecipe.tomatoes.validator.validate t = .ok () →
      BurgerRecipe.cutlets.validator.validate cu = .ok () →
      BurgerRecipe.eggs.validator.validate e = .ok () →
      BurgerRecipe.sauce.validator.validate s = .error err →
      BurgerRecipe.init b c t cu e s = .error err)
    ∧ BurgerRecipe.init (.vInt 1) c t cu e s
      = .error (.valueError (numberRangeMsg 2 3)) := by
  have hbuns1 : BurgerRecipe.buns.validator.validate (.vInt 1)
      = .error (.valueError (numberRangeMsg 2 3)) := rfl
  refine ⟨?_, ?_, ?_, ?_, ?_, ?_, ?_⟩
  · intro err h1
    simp [BurgerRecipe.init, setE_eq, h1, Except.bind, bindE_error, bindE_ok]
  · intro err h1 h2
    simp [BurgerRecipe.init, setE_eq, h1, h2, Except.bind, bindE_error, bindE_ok]
  · intro err h1 h2 h3
    simp [BurgerRecipe.init, setE_eq, h1, h2, h3, Except.bind, bindE_error, bindE_ok]
  · intro err h1 h2 h3 h4
    simp [BurgerRecipe.init, setE_eq, h1, h2, h3, h4, Except.bind, bindE_error, bindE_ok]
  · intro err h1 h2 h3 h4 h5
    simp [BurgerRecipe.init, setE_eq, h1, h2, h3, h4, h5, Except.bind, bindE_error, bindE_ok]
  · intro err h1 h2 h3 h4 h5 h6
    simp [BurgerRecipe.init, setE_eq, h1, h2, h3, h4, h5, h6, Except.bind, bindE_error, bindE_ok]
  · simp [BurgerRecipe.init, setE_eq, hbuns1, Except.bind, bindE_error, bindE_ok]

/-- Witness for C3: with `buns = 2` valid and `cheese = 5` invalid, the
failure surfaced is the `cheese` range error even though every later
argument is invalid too; and `buns = 1` fails with the `buns` range error
while every other argument is invalid. -/
theorem init_fail_fast_witness :
    BurgerRecipe.init (.vInt 2) (.vInt 5) (.vStr "bad") (.vInt 99) .vNone
        (.vInt 0)
      = .error (.valueError (numberRangeMsg 0 2))
    ∧ BurgerRecipe.init (.vInt 1) (.vInt 99) .vNone (.vStr "zz") (.vInt 7)
        (.vStr "mustard")
      = .error (.valueError (numberRangeMsg 2 3)) :=
  ⟨(init_fail_fast (.vInt 2) (.vInt 5) (.vStr "bad") (.vInt 99) .vNone
      (.vInt 0)).2.1 (.valueError (numberRangeMsg 0 2)) rfl rfl,
   (init_fail_fast (.vInt 1) (.vInt 99) .vNone (.vStr "zz") (.vInt 7)
      (.vStr "mustard")).2.2.2.2.2.2⟩

/-- C9: constructing `BurgerRecipe(2, 1, 1, 1, 1, "ketchup")` succeeds,
and reading each of the six fields back through its descriptor returns
exactly the value that was passed in. -/
theorem round_trip :
    isOkE exampleRecipe = true
    ∧ readField exampleRecipe BurgerRecipe.buns = .ok (.value (.vInt 2))
    ∧ readField exampleRecipe BurgerRecipe.cheese = .ok (.value (.vInt 1))
    ∧ readField exampleRecipe BurgerRecipe.tomatoes = .ok (.value (.vInt 1))
    ∧ readField exampleRecipe BurgerRecipe.cutlets = .ok (.value (.vInt 1))
    ∧ readField exampleRecipe BurgerRecipe.eggs = .ok (.value (.vInt 1))
    ∧ readField exampleRecipe BurgerRecipe.sauce = .ok (.value (.vStr "ketchup")) := by
  exact ⟨rfl, rfl, rfl, rfl, rfl, rfl, rfl⟩

/-- C5 counterexample: an `OutOfRange` failure (from `Number(2,3)` on `1`)
and a `NotInSet` failure (from the sauce options on `"mustard"`) are
raised with the same exception kind, `ValueError`, so the two cannot be
told apart by kind alone. -/
theorem kinds_counterexample :
    errKindOf ((Validator.number 2 3).validate (.vInt 1)) = some .valueError
    ∧ errKindOf ((Validator.oneOf ["ketchup", "mayo", "burger"]).validate
        (.vStr "mustard")) = some .valueError
    ∧ errKindOf ((Validator.number 2 3).validate (.vInt 1))
      = errKindOf ((Validator.oneOf ["ketchup", "mayo", "burger"]).validate
        (.vStr "mustard")) := by
  exact ⟨rfl, rfl, rfl⟩

/-- C5 (amended): a `TypeMismatch` failure is raised as `TypeError` and is
distinguishable by kind from `OutOfRange` and `NotInSet` failures, but
`OutOfRange` and `NotInSet` failures are both raised as `ValueError`, so
those two are distinguishable only by message, not by kind. -/
theorem kinds_amended (min_value max_value n : Int) (options : List String)
    (v w : Value) (hv : v.toIntCoerce = none)
    (hn : n < min_value ∨ max_value < n)
    (hw : ¬ ∃ s, w = .vStr s ∧ s ∈ options) :
    errKindOf ((Validator.number min_value max_value).validate v)
      = some .typeError
    ∧ errKindOf ((Validator.number min_value max_value).validate (.vInt n))
      = some .valueError
    ∧ errKindOf ((Validator.oneOf options).validate w) = some .valueError
    ∧ PyErrorType.typeError ≠ PyErrorType.valueError := by
  have hcond : ¬(min_value ≤ n ∧ n ≤ max_value) := by omega
  have hmem : options.any (fun s => w.pyEq (.vStr s)) = false := by
    rw [← Bool.not_eq_true, oneOf_mem_char]
    exact hw
  refine ⟨?_, ?_, ?_, by decide⟩
  · simp [Validator.validate, hv, errKindOf, PyError.errType]
  · simp [Validator.validate, Value.toIntCoerce, hcond, errKindOf,
      PyError.errType]
  · simp [Validator.validate, hmem, errKindOf, PyError.errType]

/-- Witness for the amended C5, at `Number(2,3)` with the string `"x"`
and the integer `1`, and the sauce options with `"mustard"`. -/
theorem kinds_amended_witness :
    errKindOf ((Validator.number 2 3).validate (.vStr "x")) = some .typeError
    ∧ errKindOf ((Validator.number 2 3).validate (.vInt 1)) = some .valueError
    ∧ errKindOf ((Validator.oneOf ["ketchup", "mayo", "burger"]).validate
        (.vStr "mustard")) = some .valueError :=
  ⟨(kinds_amended 2 3 1 ["ketchup", "mayo", "burger"] (.vStr "x")
      (.vStr "mustard") rfl (by decide)
      (by rintro ⟨s, hs, hmem⟩; cases hs; revert hmem; decide)).1,
   (kinds_amended 2 3 1 ["ketchup", "mayo", "burger"] (.vStr "x")
      (.vStr "mustard") rfl (by decide)
      (by rintro ⟨s, hs, hmem⟩; cases hs; revert hmem; decide)).2.1,
   (kinds_amended 2 3 1 ["ketchup", "mayo", "burger"] (.vStr "x")
      (.vStr "mustard") rfl (by decide)
      (by rintro ⟨s, hs, hmem⟩; cases hs; revert hmem; decide)).2.2.1⟩

/-- C6 counterexample: `Number(0, 2).validate(True)` succeeds — it does
not raise `TypeError` — because `isinstance(True, int)` holds in the host
language and `True` compares as `1`, which is inside the range. -/
theorem bool_counterexample :
    (Validator.number 0 2).validate (.vBool true) = .ok () := rfl

/-- C6 (amended): `Number.validate` treats a boolean as its integer value
(`True` as `1`, `False` as `0`): it succeeds when that value lies in the
inclusive range and otherwise raises the range `ValueError`; a
`TypeError` is never raised for a boolean. -/
theorem bool_amended (min_value max_value : Int) (b : Bool) :
    (Validator.number min_value max_value).validate (.vBool b)
      = (if min_value ≤ (if b then (1 : Int) else 0)
            ∧ (if b then (1 : Int) else 0) ≤ max_value
          then .ok ()
          else .error (.valueError (numberRangeMsg min_value max_value))) := by
  cases b <;> simp [Validator.validate, Value.toIntCoerce]

/-- C7 counterexample: the out-of-range message for `Number(2, 3)`
rejecting `1` surfaces `min` (`"2"`) and `max` (`"3"`) but not the
rejected value: `"1"` does not occur in the message at all. -/
theorem range_msg_counterexample :
    (Validator.number 2 3).validate (.vInt 1)
      = .error (.valueError (numberRangeMsg 2 3))
    ∧ surfacesB "1" (numberRangeMsg 2 3) = false
    ∧ surfacesB "2" (numberRangeMsg 2 3) = true
    ∧ surfacesB "3" (numberRangeMsg 2 3) = true := by
  refine ⟨rfl, ?_, ?_, ?_⟩ <;> decide

/-- C7 (amended): the out-of-range failure message surfaces `min` and
`max` but not the rejected value — the message is one and the same string
for every rejected integer. -/
theorem range_msg_amended (min_value max_value n : Int)
    (h : n < min_value ∨ max_value < n) :
    (Validator.number min_value max_value).validate (.vInt n)
      = .error (.valueError (numberRangeMsg min_value max_value))
    ∧ List.IsInfix (toString min_value).data
        (numberRangeMsg min_value max_value).data
    ∧ List.IsInfix (toString max_value).data
        (numberRangeMsg min_value max_value).data
    ∧ (∀ m : Int, m < min_value ∨ max_value < m →
        (Validator.number min_value max_value).validate (.vInt m)
          = (Validator.number min_value max_value).validate (.vInt n)) := by
  have hcond : ¬(min_value ≤ n ∧ n ≤ max_value) := by omega
  have hval : (Validator.number min_value max_value).validate (.vInt n)
      = .error (.valueError (numberRangeMsg min_value max_value)) := by
    simp [Validator.validate, Value.toIntCoerce, hcond]
  have hdata : (numberRangeMsg min_value max_value).data
      = "Quantity should not be less than ".data ++ (toString min_value).data
        ++ " and greater than ".data ++ (toString max_value).data
        ++ ".".data := by
    simp [numberRangeMsg]
  refine ⟨hval, ?_, ?_, ?_⟩
  · refine ⟨"Quantity should not be less than ".data,
      " and greater than ".data ++ (toString max_value).data ++ ".".data, ?_⟩
    rw [hdata]
    simp
  · refine ⟨"Quantity should not be less than ".data
        ++ (toString min_value).data ++ " and greater than ".data,
      ".".data, ?_⟩
    rw [hdata]
  · intro m hm
    have hcondm : ¬(min_value ≤ m ∧ m ≤ max_value) := by omega
    rw [hval]
    simp [Validator.validate, Value.toIntCoerce, hcondm]

/-- Witness for the amended C7 at `Number(2, 3)` rejecting `1`: the
message surfaces `"2"` and `"3"`, and the message for the rejected value
`5` is the very same one as for `1`. -/
theorem range_msg_amended_witness :
    (Validator.number 2 3).validate (.vInt 1)
      = .error (.valueError (numberRangeMsg 2 3))
    ∧ List.IsInfix (toString (2 : Int)).data (numberRangeMsg 2 3).data
    ∧ List.IsInfix (toString (3 : Int)).data (numberRangeMsg 2 3).data
    ∧ (Validator.number 2 3).validate (.vInt 5)
      = (Validator.number 2 3).validate (.vInt 1) :=
  ⟨(range_msg_amended 2 3 1 (by decide)).1,
   (range_msg_amended 2 3 1 (by decide)).2.1,
   (range_msg_amended 2 3 1 (by decide)).2.2.1,
   (range_msg_amended 2 3 1 (by decide)).2.2.2 5 (by decide)⟩

end BurgerSpec
